import Mathlib

/-
  A shallow embedding of the MomentaMouse module (src/momenta-mouse.js):
  the kinematic scroll engine, the repeated-flick multiplier, the pointer
  routing arbitration, the scroll session bookkeeping, the bounce engine,
  and the scroller registry, together with theorems checking the
  specification's claims against these definitions.
-/

namespace MomentaMouse

open Filter

open scoped Classical

/-! ### Kinematics engine (src/momenta-mouse.js, `#scroll`, lines 1266-1376) -/

/-- JavaScript `Math.sign`: -1 for negatives, 1 for positives, 0 for zero. -/
noncomputable def mathSign (x : ℝ) : ℝ :=
  if x < 0 then -1 else if 0 < x then 1 else 0

/-- JavaScript `Math.hypot` on two arguments. -/
noncomputable def mathHypot (x y : ℝ) : ℝ :=
  Real.sqrt (x ^ 2 + y ^ 2)

/-- `this.#scrollInitialVelocity = Math.hypot(vX, vY)` (line 1266). -/
noncomputable def scrollInitialVelocityTotal (vX vY : ℝ) : ℝ :=
  mathHypot vX vY

/-- `this.#scrollDuration = this.#scrollInitialVelocity / this.#scrollDeceleration`
(line 1275). -/
noncomputable def scrollDuration (vX vY scrollDeceleration : ℝ) : ℝ :=
  scrollInitialVelocityTotal vX vY / scrollDeceleration

/-- `getCurrentVelocity` (line 1343): the per-axis velocity at elapsed time
`scrollElapsedTime`, where `scrollInitialVelocity` is the total (hypot) initial
velocity captured by the closure. -/
noncomputable def getCurrentVelocity
    (scrollDeceleration scrollInitialVelocity scrollElapsedTime initialVelocity : ℝ) : ℝ :=
  mathSign initialVelocity *
    (|initialVelocity| -
      scrollDeceleration * (|initialVelocity| / scrollInitialVelocity) * scrollElapsedTime)

/-- `getNextScrollPosition` (line 1357): the per-axis scroll offset applied at
elapsed time `scrollElapsedTime`. -/
noncomputable def getNextScrollPosition
    (scrollDeceleration scrollInitialVelocity scrollElapsedTime startingPoint
      initialVelocity : ℝ) : ℝ :=
  startingPoint +
    (-initialVelocity * scrollElapsedTime +
      mathSign initialVelocity * 0.5 * scrollDeceleration *
        (|initialVelocity| / scrollInitialVelocity) * scrollElapsedTime ^ 2)

/-- `getScrollDistance` (line 1282): projected per-axis travel distance. -/
noncomputable def getScrollDistance (scrollDurationValue initialVelocity : ℝ) : ℝ :=
  |initialVelocity| * scrollDurationValue / 2

/-- The specification's position formula, written from the spec text:
`p(t) = p0 - v0*t + sign(v0)*0.5*d*(|v0|/v0_total)*t^2`. -/
noncomputable def specScrollPosition (p0 v0 d v0Total t : ℝ) : ℝ :=
  p0 - v0 * t + mathSign v0 * (0.5 * d * (|v0| / v0Total) * t ^ 2)

/-- The specification's velocity formula, written from the spec text:
`sign(v0)*(|v0| - d*(|v0|/v0_total)*t)`. -/
noncomputable def specScrollVelocity (v0 d v0Total t : ℝ) : ℝ :=
  mathSign v0 * (|v0| - d * (|v0| / v0Total) * t)

/-! ### Repeated-flick multiplier (src/momenta-mouse.js, `#scroll`, lines
1208-1264) -/

/-- The multiplier timing criteria (lines 1208-1216): the new scroll starts
within half the previous scroll's duration of the previous scroll's start
timestamp and within 500 ms of the previous scroll's stop timestamp. -/
def scrollMeetsMultiplierTimingCriteria
    (scrollStartTimestamp previousScrollStartTimestamp previousScrollDuration
      previousScrollStopTimestamp : ℝ) : Prop :=
  scrollStartTimestamp - previousScrollStartTimestamp < 0.5 * previousScrollDuration ∧
    scrollStartTimestamp - previousScrollStopTimestamp < 500

/-- `getInitialVelocityMultiplier` (lines 1218-1236). The previous direction is
an `Option` because the source stores `NaN` there after a session finalizes,
and a JavaScript `===` comparison against `NaN` is false. -/
noncomputable def getInitialVelocityMultiplier
    (scrollDirection : ℝ) (previousScrollDirection : Option ℝ)
    (edge1 edge2 : Bool) (timingCriteriaMet : Prop)
    (initialVelocityMultiplier : ℕ) : ℕ :=
  if scrollDirection = 0 then 1
  else if (edge1 = false ∧ edge2 = false) ∧
      previousScrollDirection = some scrollDirection ∧ timingCriteriaMet then
    initialVelocityMultiplier + 1
  else 1

/-- Lines 1261-1264: the effective initial velocity on an axis is the raw
release velocity times the multiplier. -/
noncomputable def effectiveScrollInitialVelocity (raw : ℝ) (multiplier : ℕ) : ℝ :=
  raw * multiplier

/-! ### Pointer routing arbiter (src/momenta-mouse.js, `#pointerDownRouter`,
lines 280-583) -/

/-- The scrollable-axes classification computed by `#getUpdatedScrollableAxes`
(lines 893-911). -/
inductive ScrollableAxes
  | horizontalAndVertical
  | horizontalOnly
  | verticalOnly
  | noAxes
deriving DecidableEq

/-- The outcome reported by the threshold test's pointer-move listener. -/
inductive ThresholdCrossed
  | horizontal
  | vertical
deriving DecidableEq

/-- An entry of `relevantEventTargetsAndProperties` (lines 300-351), innermost
first. -/
structure RelevantEventTarget where
  targetId : ℕ
  isNonScroller : Bool
  isScrollerMomentum : Bool
  isScrollerNonMomentum : Bool
  scrollableAxes : ScrollableAxes
deriving DecidableEq

/-- `getPointerDistanceFromOrigin` (line 386). -/
noncomputable def getPointerDistanceFromOrigin (originalPosition newPosition : ℝ) : ℝ :=
  |originalPosition - newPosition|

/-- The classification made by `thresholdTest`'s pointer-move listener (lines
400-410) at the given per-axis distances from the pointer-down origin:
a horizontal crossing, a vertical crossing, or no crossing yet. -/
noncomputable def thresholdTestClassify
    (threshold pointerDistanceFromOriginX pointerDistanceFromOriginY : ℝ) :
    Option ThresholdCrossed :=
  if pointerDistanceFromOriginX > threshold ∧
      pointerDistanceFromOriginX > pointerDistanceFromOriginY then
    some ThresholdCrossed.horizontal
  else if pointerDistanceFromOriginY > threshold ∧
      pointerDistanceFromOriginY > pointerDistanceFromOriginX then
    some ThresholdCrossed.vertical
  else none

/-- `findCompatibleScroller` (lines 452-468). -/
def findCompatibleScroller
    (scrollersToIgnore : List ℕ) (allowNonMomentaMouseScrollers : Bool)
    (allowedScrollableAxes : List ScrollableAxes)
    (relevantEventTargetsAndProperties : List RelevantEventTarget) :
    Option RelevantEventTarget :=
  relevantEventTargetsAndProperties.find? fun t =>
    decide (t.targetId ∉ scrollersToIgnore) &&
      (t.isScrollerMomentum || (t.isScrollerNonMomentum && allowNonMomentaMouseScrollers)) &&
      decide (t.scrollableAxes ∈ allowedScrollableAxes)

/-- The provisional routing decision (lines 470-477): with more than one
relevant event target, the pointer-down is first routed to the first
(innermost) relevant target in the propagation chain. -/
def provisionalRouteTargetId (targets : List RelevantEventTarget) : Option ℕ :=
  targets.head?.map (fun t => t.targetId)

/-- The scroller branch of `#pointerDownRouter` (lines 479-523), as the id of
the event target that finally owns the gesture, given the top (provisionally
routed) target, the relevant-target list, and the outcome the threshold test
reports. -/
def pointerDownRouterScrollerBranch
    (top : RelevantEventTarget) (targets : List RelevantEventTarget)
    (thresholdCrossed : Option ThresholdCrossed) : ℕ :=
  if top.scrollableAxes = ScrollableAxes.horizontalAndVertical then top.targetId
  else
    let scrollableAxesThatHaveMissingAxis :=
      if top.scrollableAxes = ScrollableAxes.horizontalOnly then
        [ScrollableAxes.horizontalAndVertical, ScrollableAxes.verticalOnly]
      else [ScrollableAxes.horizontalAndVertical, ScrollableAxes.horizontalOnly]
    match findCompatibleScroller [top.targetId] top.isScrollerMomentum
        scrollableAxesThatHaveMissingAxis targets with
    | none => top.targetId
    | some nextCompatibleScroller =>
      match thresholdCrossed with
      | none => top.targetId
      | some ThresholdCrossed.horizontal =>
        if top.scrollableAxes = ScrollableAxes.horizontalOnly then top.targetId
        else nextCompatibleScroller.targetId
      | some ThresholdCrossed.vertical =>
        if top.scrollableAxes = ScrollableAxes.verticalOnly then top.targetId
        else nextCompatibleScroller.targetId

/-- The inner, horizontal-only momentum region of claim C2's scenario. -/
def innerHorizontalOnlyTarget : RelevantEventTarget :=
  ⟨0, false, true, false, ScrollableAxes.horizontalOnly⟩

/-- The outer, vertical-only momentum region of claim C2's scenario. -/
def outerVerticalOnlyTarget : RelevantEventTarget :=
  ⟨1, false, true, false, ScrollableAxes.verticalOnly⟩

/-! ### Scroll session bookkeeping (src/momenta-mouse.js, `#scroll` lines
1184-1321 and `#stopScroll` lines 1463-1490) -/

/-- Observable actions of the scroll session bookkeeping, in emission order. -/
inductive ScrollEvent
  | resolve (promiseId : ℕ) (interruptedBy : Option String)
  | dispatchScrollStop (interruptedBy : Option String)
  | cancelFrame (rafId : ℕ)
  | scheduleFrame (rafId : ℕ)
deriving DecidableEq

/-- The per-region mutable state that the new-scroll path of `#scroll` and
`#stopScroll` touch. `scrollResolve` holds the id of the pending completion
when a session is running; `nextPromiseId` and `nextRafId` supply fresh ids. -/
structure ScrollMachineState where
  scrollResolve : Option ℕ
  scrollRafId : ℕ
  nextPromiseId : ℕ
  nextRafId : ℕ
  scrollLeft : ℝ
  scrollTop : ℝ

/-- `#stopScroll` (lines 1463-1490): resolve the pending completion (if any)
with the interruption reason, dispatch the stop notification, cancel the
scheduled frame callback, and clear the session state. -/
def stopScroll (interruptedBy : Option String) (s : ScrollMachineState) :
    ScrollMachineState × List ScrollEvent :=
  ({ s with scrollResolve := none },
    (match s.scrollResolve with
      | some promiseId => [ScrollEvent.resolve promiseId interruptedBy]
      | none => []) ++
      [ScrollEvent.dispatchScrollStop interruptedBy, ScrollEvent.cancelFrame s.scrollRafId])

/-- The minimum-distance suppression condition (lines 1288-1303), from the
source: both initial velocities zero, or the projected distance below the
minimum scrollable distance `1 / devicePixelRatio` on the applicable scrollable
axes. The velocities are the post-multiplier values stored at lines 1261-1264. -/
def scrollSuppressCondition
    (scrollableAxes : ScrollableAxes)
    (scrollInitialVelocityX scrollInitialVelocityY scrollDeceleration
      devicePixelRatio : ℝ) : Prop :=
  let scrollDistanceX := getScrollDistance
    (scrollDuration scrollInitialVelocityX scrollInitialVelocityY scrollDeceleration)
    scrollInitialVelocityX
  let scrollDistanceY := getScrollDistance
    (scrollDuration scrollInitialVelocityX scrollInitialVelocityY scrollDeceleration)
    scrollInitialVelocityY
  let minimumScrollableDistance := 1 / devicePixelRatio
  (scrollInitialVelocityX = 0 ∧ scrollInitialVelocityY = 0) ∨
    (scrollableAxes = ScrollableAxes.horizontalOnly ∧
      scrollDistanceX < minimumScrollableDistance) ∨
    (scrollableAxes = ScrollableAxes.verticalOnly ∧
      scrollDistanceY < minimumScrollableDistance) ∨
    (scrollableAxes = ScrollableAxes.horizontalAndVertical ∧
      scrollDistanceX < minimumScrollableDistance ∧
      scrollDistanceY < minimumScrollableDistance)

/-- The new-scroll entry path of `#scroll` (lines 1194-1321), projected onto
the session bookkeeping: interrupt any running session with the reason
`"New momentum scroll"`, then either resolve the new session immediately
(minimum-distance suppression, lines 1294-1311) or schedule its first frame.
The velocities are the post-multiplier values. -/
noncomputable def scrollStart
    (scrollableAxes : ScrollableAxes)
    (scrollInitialVelocityX scrollInitialVelocityY scrollDeceleration
      devicePixelRatio : ℝ)
    (s : ScrollMachineState) : ScrollMachineState × List ScrollEvent :=
  let stopPrevious :=
    if s.scrollResolve.isSome then stopScroll (some "New momentum scroll") s else (s, [])
  let s1 := stopPrevious.1
  if scrollSuppressCondition scrollableAxes scrollInitialVelocityX scrollInitialVelocityY
      scrollDeceleration devicePixelRatio then
    let s2 : ScrollMachineState :=
      { s1 with scrollResolve := some s1.nextPromiseId,
                nextPromiseId := s1.nextPromiseId + 1 }
    let stopped := stopScroll (some "Scroll distance is below minimum scrollable distance") s2
    (stopped.1, stopPrevious.2 ++ stopped.2)
  else
    ({ s1 with scrollResolve := some s1.nextPromiseId,
               nextPromiseId := s1.nextPromiseId + 1,
               scrollRafId := s1.nextRafId,
               nextRafId := s1.nextRafId + 1 },
      stopPrevious.2 ++ [ScrollEvent.scheduleFrame s1.nextRafId])

/-- The claim's minimum-distance hypothesis, written from the spec text: the
projected distance `|v0| * T / 2` is below one device pixel on every scrollable
axis of the region. -/
def specEveryScrollableAxisBelowMinimum
    (scrollableAxes : ScrollableAxes) (vX vY scrollDeceleration devicePixelRatio : ℝ) :
    Prop :=
  let scrollDistanceX := getScrollDistance (scrollDuration vX vY scrollDeceleration) vX
  let scrollDistanceY := getScrollDistance (scrollDuration vX vY scrollDeceleration) vY
  match scrollableAxes with
  | ScrollableAxes.horizontalAndVertical =>
    scrollDistanceX < 1 / devicePixelRatio ∧ scrollDistanceY < 1 / devicePixelRatio
  | ScrollableAxes.horizontalOnly => scrollDistanceX < 1 / devicePixelRatio
  | ScrollableAxes.verticalOnly => scrollDistanceY < 1 / devicePixelRatio
  | ScrollableAxes.noAxes => True

/-! ### Release-velocity estimation (src/momenta-mouse.js, `#pointerUpHandler`,
lines 1087-1158) -/

/-- One `(screenX, screenY, timeStamp)` entry of `#pointerMoveLog`. -/
structure PointerMoveSample where
  screenX : ℝ
  screenY : ℝ
  timeStamp : ℝ

/-- The axis argument of `getVelocity`. -/
inductive Axis
  | x
  | y
deriving DecidableEq

/-- `ScrollContainerTools.getEdgeStatus` result. -/
structure EdgeStatus where
  atLeftEdge : Bool
  atRightEdge : Bool
  atTopEdge : Bool
  atBottomEdge : Bool

/-- The coordinate a log entry contributes for the given axis (line 1100). -/
noncomputable def sampleCoord (axis : Axis) (s : PointerMoveSample) : ℝ :=
  match axis with
  | Axis.x => s.screenX
  | Axis.y => s.screenY

/-- Lines 1116-1129: a release velocity that would push past a pinned edge is
zeroed. -/
noncomputable def edgeAdjustedVelocity (axis : Axis) (edges : EdgeStatus) (velocity : ℝ) :
    ℝ :=
  match axis with
  | Axis.x =>
    if (edges.atLeftEdge = true ∧ velocity > 0) ∨ (edges.atRightEdge = true ∧ velocity < 0)
    then 0 else velocity
  | Axis.y =>
    if (edges.atTopEdge = true ∧ velocity > 0) ∨ (edges.atBottomEdge = true ∧ velocity < 0)
    then 0 else velocity

/-- One iteration of the sampling loop in `getVelocity` (lines 1102-1133):
`some v` means the loop returns `v`; `none` means it continues with the next
older sample. -/
noncomputable def getVelocitySampleStep
    (pointerMoveLog : List PointerMoveSample) (endTime endPosition : ℝ)
    (axis : Axis) (edges : EdgeStatus) (i : ℕ) : Option ℝ :=
  if pointerMoveLog.length < i then some 0
  else
    let sample := pointerMoveLog.getD (pointerMoveLog.length - i) ⟨0, 0, 0⟩
    let positionChange := endPosition - sampleCoord axis sample
    let timeChange := endTime - sample.timeStamp
    if positionChange ≠ 0 ∧ timeChange ≠ 0 then
      some (edgeAdjustedVelocity axis edges (positionChange / timeChange))
    else none

/-- `getVelocity` (lines 1092-1136): release-velocity estimation from the
pointer-move log, gated by the momentum-scroll criteria of lines 1093-1098. -/
noncomputable def getVelocity
    (pointerMoveLog : List PointerMoveSample) (endTime endPosition : ℝ)
    (axis : Axis) (edges : EdgeStatus) : ℝ :=
  if 0 < pointerMoveLog.length ∧
      endTime - (pointerMoveLog.getLastD ⟨0, 0, 0⟩).timeStamp < 100 then
    ([1, 2, 3, 4].findSome?
        (getVelocitySampleStep pointerMoveLog endTime endPosition axis edges)).getD 0
  else 0

/-! ### Scroller registry (src/momenta-mouse.js, `createScroller`, lines
71-158) -/

/-- The document elements relevant to registration: the root element
(`document.documentElement`), `document.body`, and everything else. -/
inductive ScrollContainer
  | documentElement
  | body
  | other (n : ℕ)
deriving DecidableEq

/-- `MomentaMouse.#scrollerMap`: the container-to-scroller map, as an
association list of container / scroller-id pairs. -/
abbrev ScrollerMap := List (ScrollContainer × ℕ)

/-- `this.#scrollerMap.get(...)` / `.has(...)`. -/
def scrollerMapGet (m : ScrollerMap) (c : ScrollContainer) : Option ℕ :=
  (m.find? fun entry => decide (entry.1 = c)).map (fun entry => entry.2)

/-- `createScroller` (lines 71-158) restricted to its registry behavior:
return the existing scroller for an already-registered container (line 85);
return nothing and register nothing when the container is `document.body` and
the root element already has a scroller (lines 87-92); otherwise register and
return a new scroller. -/
def createScroller (m : ScrollerMap) (scrollContainer : ScrollContainer) (freshId : ℕ) :
    Option ℕ × ScrollerMap :=
  match scrollerMapGet m scrollContainer with
  | some scroller => (some scroller, m)
  | none =>
    if scrollContainer = ScrollContainer.body ∧
        (scrollerMapGet m ScrollContainer.documentElement).isSome then
      (none, m)
    else (some freshId, (scrollContainer, freshId) :: m)

/-! ### Edge-elastic drag resistance (src/momenta-mouse.js, `#pointerDownHandler`,
lines 995-1011) -/

/-- `getCurrentTranslate` (line 995): during live dragging past a boundary,
`currentTranslate + movement * (1 / (bounciness * Math.abs(Math.pow(currentTranslate
+ movement, 2)) + 1))`. -/
noncomputable def getCurrentTranslate (bounciness currentTranslate movement : ℝ) : ℝ :=
  currentTranslate +
    movement * (1 / (bounciness * |(currentTranslate + movement) ^ 2| + 1))

/-- The specification's drag-resistance formula, written from the spec text:
`translate += movement * (1 / (bounciness * translate^2 + 1))` with `translate`
the displacement before the move. -/
noncomputable def specDragTranslate (bounciness currentTranslate movement : ℝ) : ℝ :=
  currentTranslate + movement * (1 / (bounciness * currentTranslate ^ 2 + 1))

/-! ### Bounce engine (src/momenta-mouse.js, `#bounce`, lines 1553-1741) -/

/-- `this.#bounceTimeAtMaximumDisplacment = 1 / this.#bounceDamping`
(line 1583; the name keeps the source's spelling). -/
noncomputable def bounceTimeAtMaximumDisplacment (bounceDamping : ℝ) : ℝ :=
  1 / bounceDamping

/-- `getInitialVelocity` (lines 1590-1596): back-solve the velocity whose
decay curve reaches `currentPosition` at the time of maximum displacement. -/
noncomputable def bounceGetInitialVelocity (bounceDamping currentPosition : ℝ) : ℝ :=
  currentPosition /
    (bounceTimeAtMaximumDisplacment bounceDamping *
      Real.exp (-1 * bounceDamping * bounceTimeAtMaximumDisplacment bounceDamping))

/-- The rebound-only entry of `#bounce` (lines 1599-1603): the initial
velocity and initial position for an axis that starts from a residual
displacement with no impact velocity. -/
noncomputable def bounceReboundOnlySetup (bounceDamping bounceCurrentTranslate : ℝ) :
    ℝ × ℝ :=
  let bounceInitialVelocity :=
    bounceGetInitialVelocity bounceDamping bounceCurrentTranslate / Real.exp 1
  (bounceInitialVelocity,
    bounceInitialVelocity * bounceTimeAtMaximumDisplacment bounceDamping)

/-- The impact entry of `#bounce` (lines 1604-1606): the initial velocity is
the impact velocity scaled by 0.1 and the initial position is 0. -/
noncomputable def bounceImpactSetup (initialVelocity : ℝ) : ℝ × ℝ :=
  (initialVelocity * 0.1, 0)

/-- `getTranslate` (lines 1665-1667): the bounce decay curve. -/
noncomputable def getTranslate
    (bounceDamping initialPosition initialVelocity elapsedTime : ℝ) : ℝ :=
  (initialPosition + initialVelocity * elapsedTime) /
    Real.exp (bounceDamping * elapsedTime)

/-- `getIsAtEquilibrium` (lines 1682-1686), with `tolerance` standing for
`1 / devicePixelRatio`. -/
def getIsAtEquilibrium
    (bounceDamping tolerance : ℝ) (scrolling : Bool) (elapsedTime translate : ℝ) :
    Prop :=
  scrolling = false ∨
    (scrolling = true ∧ elapsedTime > bounceTimeAtMaximumDisplacment bounceDamping ∧
      |translate| < tolerance)

/-- The per-session constants of one bounce session (the `#bounce` fields set
on entry, lines 1579-1622). -/
structure BounceSession where
  bounceDamping : ℝ
  tolerance : ℝ
  bounceBouncingX : Bool
  bounceInitialPositionX : ℝ
  bounceInitialVelocityX : ℝ
  bounceStartTimeX : ℝ
  bounceBouncingY : Bool
  bounceInitialPositionY : ℝ
  bounceInitialVelocityY : ℝ
  bounceStartTimeY : ℝ

/-- The x translate computed by the bounce frame at clock time `currentTime`
(lines 1669-1673). -/
noncomputable def bounceFrameTranslateX (b : BounceSession) (currentTime : ℝ) : ℝ :=
  getTranslate b.bounceDamping b.bounceInitialPositionX b.bounceInitialVelocityX
    (currentTime - b.bounceStartTimeX)

/-- The y translate computed by the bounce frame at clock time `currentTime`
(lines 1674-1678). -/
noncomputable def bounceFrameTranslateY (b : BounceSession) (currentTime : ℝ) : ℝ :=
  getTranslate b.bounceDamping b.bounceInitialPositionY b.bounceInitialVelocityY
    (currentTime - b.bounceStartTimeY)

/-- Whether the bounce frame at `currentTime` is terminal: both axes at
equilibrium (lines 1688-1705). -/
def bounceFrameIsTerminal (b : BounceSession) (currentTime : ℝ) : Prop :=
  getIsAtEquilibrium b.bounceDamping b.tolerance b.bounceBouncingX
      (currentTime - b.bounceStartTimeX) (bounceFrameTranslateX b currentTime) ∧
    getIsAtEquilibrium b.bounceDamping b.tolerance b.bounceBouncingY
      (currentTime - b.bounceStartTimeY) (bounceFrameTranslateY b currentTime)

/-- The translate pair a bounce frame leaves behind: reset to the origin
exactly when the frame is terminal (lines 1699-1712). -/
noncomputable def bounceFrameResultTranslate (b : BounceSession) (currentTime : ℝ) :
    ℝ × ℝ :=
  if bounceFrameIsTerminal b currentTime then (0, 0)
  else (bounceFrameTranslateX b currentTime, bounceFrameTranslateY b currentTime)

/-! ### Helper lemmas -/

theorem getTranslate_tendsto_zero (bounceDamping p0 v0 : ℝ) (hd : 0 < bounceDamping)
    {f : ℕ → ℝ} (hf : Tendsto f atTop atTop) :
    Tendsto (fun n => getTranslate bounceDamping p0 v0 (f n)) atTop (nhds 0) := by
  have hdne : bounceDamping ≠ 0 := ne_of_gt hd
  have hmul : Tendsto (fun u : ℝ => bounceDamping * u) atTop atTop :=
    Tendsto.const_mul_atTop hd tendsto_id
  have hexp : Tendsto (fun u : ℝ => Real.exp (-(bounceDamping * u))) atTop (nhds 0) := by
    simpa [Function.comp_def] using Real.tendsto_exp_neg_atTop_nhds_zero.comp hmul
  have hxexp : Tendsto (fun u : ℝ =>
      bounceDamping * u * Real.exp (-(bounceDamping * u))) atTop (nhds 0) := by
    simpa [Function.comp_def] using
      (Real.tendsto_pow_mul_exp_neg_atTop_nhds_zero 1).comp hmul
  have hbase : Tendsto (fun u : ℝ =>
      (p0 + v0 * u) * Real.exp (-(bounceDamping * u))) atTop (nhds 0) := by
    have hsum := (hexp.const_mul p0).add (hxexp.const_mul (v0 / bounceDamping))
    rw [mul_zero, mul_zero, add_zero] at hsum
    refine hsum.congr fun u => ?_
    field_simp
    ring
  refine (hbase.comp hf).congr fun n => ?_
  simp only [Function.comp_apply, getTranslate, Real.exp_neg, div_eq_mul_inv]

theorem mathSign_mul_abs (x : ℝ) : mathSign x * |x| = x := by
  rcases lt_trichotomy x 0 with h | h | h
  · simp [mathSign, h, abs_of_neg h]
  · simp [mathSign, h]
  · simp [mathSign, h, not_lt_of_gt h, abs_of_pos h]

theorem mathHypot_nonneg (x y : ℝ) : 0 ≤ mathHypot x y :=
  Real.sqrt_nonneg _

theorem mathHypot_pos (x y : ℝ) (h : ¬(x = 0 ∧ y = 0)) : 0 < mathHypot x y := by
  rcases not_and_or.mp h with h | h
  · exact Real.sqrt_pos.mpr (by nlinarith [sq_nonneg y, sq_pos_of_ne_zero h])
  · exact Real.sqrt_pos.mpr (by nlinarith [sq_nonneg x, sq_pos_of_ne_zero h])

theorem mathHypot_zero_left (y : ℝ) : mathHypot 0 y = |y| := by
  simp [mathHypot, Real.sqrt_sq_eq_abs]

/-! ### Claim C1 -/

/-- Claim C1: for a new momentum scroll with initial velocities `(v0x, v0y)` not
both zero and deceleration `d > 0`, the duration is `T = hypot(v0x, v0y) / d`;
at every elapsed time the applied offset and computed velocity agree with the
specification's closed forms; and at `t = T` the per-axis distance travelled is
`|v0| * T / 2` and the per-axis current velocity is exactly 0. -/
theorem scroll_kinematics_closed_form
    (v0x v0y d p0 t : ℝ) (hd : 0 < d) (hv : ¬(v0x = 0 ∧ v0y = 0)) :
    scrollDuration v0x v0y d = mathHypot v0x v0y / d ∧
    (∀ v0, getNextScrollPosition d (mathHypot v0x v0y) t p0 v0 =
        specScrollPosition p0 v0 d (mathHypot v0x v0y) t) ∧
    (∀ v0, getCurrentVelocity d (mathHypot v0x v0y) t v0 =
        specScrollVelocity v0 d (mathHypot v0x v0y) t) ∧
    (∀ v0, |getNextScrollPosition d (mathHypot v0x v0y) (scrollDuration v0x v0y d) p0 v0 - p0|
        = |v0| * scrollDuration v0x v0y d / 2) ∧
    (∀ v0, getCurrentVelocity d (mathHypot v0x v0y) (scrollDuration v0x v0y d) v0 = 0) := by
  have hV : 0 < mathHypot v0x v0y := mathHypot_pos v0x v0y hv
  have hVne : mathHypot v0x v0y ≠ 0 := ne_of_gt hV
  have hdne : d ≠ 0 := ne_of_gt hd
  have hDur : scrollDuration v0x v0y d = mathHypot v0x v0y / d := rfl
  have hTpos : 0 < mathHypot v0x v0y / d := div_pos hV hd
  refine ⟨rfl, ?_, ?_, ?_, ?_⟩
  · intro v0
    simp only [getNextScrollPosition, specScrollPosition]
    ring
  · intro v0
    simp only [getCurrentVelocity, specScrollVelocity]
  · intro v0
    rw [hDur]
    have hstep : getNextScrollPosition d (mathHypot v0x v0y) (mathHypot v0x v0y / d) p0 v0 - p0
        = -(v0 * (mathHypot v0x v0y / d)) / 2 := by
      rcases lt_trichotomy v0 0 with h | h | h
      · simp only [getNextScrollPosition, mathSign, if_pos h, abs_of_neg h]
        field_simp
        ring
      · simp [getNextScrollPosition, h, mathSign]
      · simp only [getNextScrollPosition, mathSign, if_neg (not_lt_of_gt h),
          if_pos h, abs_of_pos h]
        field_simp
        ring
    rw [hstep]
    rw [abs_div, abs_neg, abs_mul, abs_of_pos hTpos]
    norm_num
  · intro v0
    rw [hDur]
    have hcancel : d * (|v0| / mathHypot v0x v0y) * (mathHypot v0x v0y / d) = |v0| := by
      field_simp
    simp only [getCurrentVelocity, hcancel, sub_self, mul_zero]

/-- Witness for C1 at the spec's concrete scenario `(v0x, v0y) = (0, -2)`,
`d = 1`: the hypotheses hold and the duration evaluates to `2`. -/
theorem scroll_kinematics_closed_form_witness :
    (0:ℝ) < 1 ∧ ¬((0:ℝ) = 0 ∧ (-2:ℝ) = 0) ∧
    scrollDuration 0 (-2) 1 = 2 ∧
    (∀ v0 : ℝ, getCurrentVelocity 1 (mathHypot 0 (-2)) (scrollDuration 0 (-2) 1) v0 = 0) := by
  have hdur : scrollDuration 0 (-2) 1 = 2 := by
    simp [scrollDuration, scrollInitialVelocityTotal, mathHypot_zero_left]
  exact ⟨by norm_num, by norm_num, hdur,
    (scroll_kinematics_closed_form 0 (-2) 1 500 0 (by norm_num) (by norm_num)).2.2.2.2⟩

/-! ### Claim C7 -/

/-- Counterexample for C7: at `bounciness = 1`, `translate = 0`, `movement = 1`
the code's update yields `1/2` while the claim's formula (damping by the
pre-move translate) yields `1`. -/
theorem drag_resistance_claim_counterexample :
    getCurrentTranslate 1 0 1 ≠ specDragTranslate 1 0 1 := by
  norm_num [getCurrentTranslate, specDragTranslate]

/-- Claim C7 (amended): each pointer move with movement `m` updates the
accumulated overscroll displacement by
`translate + m * (1 / (bounciness * (translate + m)^2 + 1))`: the damping
denominator uses the translate-plus-raw-movement, not the pre-move translate. -/
theorem drag_resistance_update_amended (bounciness currentTranslate movement : ℝ) :
    getCurrentTranslate bounciness currentTranslate movement =
      currentTranslate +
        movement * (1 / (bounciness * (currentTranslate + movement) ^ 2 + 1)) := by
  rw [getCurrentTranslate, abs_of_nonneg (sq_nonneg _)]

/-! ### Claim C2 -/

/-- Claim C2: with a horizontal-only momentum region nested inside a
vertical-only momentum region, the pointer-down is provisionally routed to the
inner region; a movement past the threshold that is strictly more vertical
re-routes the gesture to the outer region; one strictly more horizontal leaves
it with the inner region; and if the threshold test reports no crossing the
gesture stays with the provisionally routed candidate. -/
theorem nested_scroller_threshold_arbitration (x0 x1 y0 y1 : ℝ) :
    provisionalRouteTargetId [innerHorizontalOnlyTarget, outerVerticalOnlyTarget] =
      some innerHorizontalOnlyTarget.targetId ∧
    (getPointerDistanceFromOrigin y0 y1 > 5 →
      getPointerDistanceFromOrigin y0 y1 > getPointerDistanceFromOrigin x0 x1 →
      pointerDownRouterScrollerBranch innerHorizontalOnlyTarget
        [innerHorizontalOnlyTarget, outerVerticalOnlyTarget]
        (thresholdTestClassify 5 (getPointerDistanceFromOrigin x0 x1)
          (getPointerDistanceFromOrigin y0 y1)) = outerVerticalOnlyTarget.targetId) ∧
    (getPointerDistanceFromOrigin x0 x1 > 5 →
      getPointerDistanceFromOrigin x0 x1 > getPointerDistanceFromOrigin y0 y1 →
      pointerDownRouterScrollerBranch innerHorizontalOnlyTarget
        [innerHorizontalOnlyTarget, outerVerticalOnlyTarget]
        (thresholdTestClassify 5 (getPointerDistanceFromOrigin x0 x1)
          (getPointerDistanceFromOrigin y0 y1)) = innerHorizontalOnlyTarget.targetId) ∧
    pointerDownRouterScrollerBranch innerHorizontalOnlyTarget
      [innerHorizontalOnlyTarget, outerVerticalOnlyTarget] none =
      innerHorizontalOnlyTarget.targetId := by
  refine ⟨rfl, ?_, ?_, by decide⟩
  · intro h1 h2
    have hc : thresholdTestClassify 5 (getPointerDistanceFromOrigin x0 x1)
        (getPointerDistanceFromOrigin y0 y1) = some ThresholdCrossed.vertical := by
      rw [thresholdTestClassify, if_neg, if_pos ⟨h1, h2⟩]
      rintro ⟨-, hgt⟩
      exact absurd h2 (not_lt.mpr (le_of_lt hgt))
    rw [hc]
    decide
  · intro h1 h2
    have hc : thresholdTestClassify 5 (getPointerDistanceFromOrigin x0 x1)
        (getPointerDistanceFromOrigin y0 y1) = some ThresholdCrossed.horizontal := by
      rw [thresholdTestClassify, if_pos ⟨h1, h2⟩]
    rw [hc]
    decide

/-- Witness for C2 at the pointer-down origin `(0, 0)`: a move to `(0, 10)`
(vertical distance 10, horizontal 0) re-routes to the outer region, and a move
to `(10, 0)` keeps the inner region. -/
theorem nested_scroller_threshold_arbitration_witness :
    getPointerDistanceFromOrigin 0 (10:ℝ) > 5 ∧
    getPointerDistanceFromOrigin 0 (10:ℝ) > getPointerDistanceFromOrigin 0 (0:ℝ) ∧
    pointerDownRouterScrollerBranch innerHorizontalOnlyTarget
      [innerHorizontalOnlyTarget, outerVerticalOnlyTarget]
      (thresholdTestClassify 5 (getPointerDistanceFromOrigin 0 0)
        (getPointerDistanceFromOrigin 0 10)) = outerVerticalOnlyTarget.targetId ∧
    pointerDownRouterScrollerBranch innerHorizontalOnlyTarget
      [innerHorizontalOnlyTarget, outerVerticalOnlyTarget]
      (thresholdTestClassify 5 (getPointerDistanceFromOrigin 0 10)
        (getPointerDistanceFromOrigin 0 0)) = innerHorizontalOnlyTarget.targetId := by
  have hbig : getPointerDistanceFromOrigin 0 (10:ℝ) > 5 := by
    norm_num [getPointerDistanceFromOrigin]
  have hsmall : getPointerDistanceFromOrigin 0 (10:ℝ) >
      getPointerDistanceFromOrigin 0 (0:ℝ) := by
    norm_num [getPointerDistanceFromOrigin]
  exact ⟨hbig, hsmall,
    (nested_scroller_threshold_arbitration 0 0 0 10).2.1 hbig hsmall,
    (nested_scroller_threshold_arbitration 0 10 0 0).2.2.1 hbig hsmall⟩

/-! ### Claim C3 -/

/-- Claim C3: per axis, the repeated-flick multiplier increments by one exactly
when the new flick has nonzero velocity in the previous scroll's direction,
meets the timing window, and the region is not pinned at either edge of the
axis, so consecutive qualifying flicks from a reset counter give multipliers
2 and then 3; any other flick resets the counter to 1; and the effective
initial velocity is the raw release velocity times the multiplier. -/
theorem repeated_flick_multiplier_update
    (scrollDirection : ℝ) (previousScrollDirection : Option ℝ) (edge1 edge2 : Bool)
    (scrollStartTimestamp previousScrollStartTimestamp previousScrollDuration
      previousScrollStopTimestamp : ℝ) (m : ℕ) (raw : ℝ) :
    (scrollDirection ≠ 0 → previousScrollDirection = some scrollDirection →
      edge1 = false → edge2 = false →
      scrollMeetsMultiplierTimingCriteria scrollStartTimestamp previousScrollStartTimestamp
        previousScrollDuration previousScrollStopTimestamp →
      getInitialVelocityMultiplier scrollDirection previousScrollDirection edge1 edge2
        (scrollMeetsMultiplierTimingCriteria scrollStartTimestamp
          previousScrollStartTimestamp previousScrollDuration previousScrollStopTimestamp)
        m = m + 1) ∧
    (scrollDirection ≠ 0 → previousScrollDirection = some scrollDirection →
      scrollMeetsMultiplierTimingCriteria scrollStartTimestamp previousScrollStartTimestamp
        previousScrollDuration previousScrollStopTimestamp →
      getInitialVelocityMultiplier scrollDirection previousScrollDirection false false
        (scrollMeetsMultiplierTimingCriteria scrollStartTimestamp
          previousScrollStartTimestamp previousScrollDuration previousScrollStopTimestamp)
        (getInitialVelocityMultiplier scrollDirection previousScrollDirection false false
          (scrollMeetsMultiplierTimingCriteria scrollStartTimestamp
            previousScrollStartTimestamp previousScrollDuration
            previousScrollStopTimestamp) 1) = 3) ∧
    (scrollDirection = 0 →
      getInitialVelocityMultiplier scrollDirection previousScrollDirection edge1 edge2
        (scrollMeetsMultiplierTimingCriteria scrollStartTimestamp
          previousScrollStartTimestamp previousScrollDuration previousScrollStopTimestamp)
        m = 1) ∧
    (previousScrollDirection ≠ some scrollDirection →
      getInitialVelocityMultiplier scrollDirection previousScrollDirection edge1 edge2
        (scrollMeetsMultiplierTimingCriteria scrollStartTimestamp
          previousScrollStartTimestamp previousScrollDuration previousScrollStopTimestamp)
        m = 1) ∧
    (edge1 = true ∨ edge2 = true →
      getInitialVelocityMultiplier scrollDirection previousScrollDirection edge1 edge2
        (scrollMeetsMultiplierTimingCriteria scrollStartTimestamp
          previousScrollStartTimestamp previousScrollDuration previousScrollStopTimestamp)
        m = 1) ∧
    (¬ scrollMeetsMultiplierTimingCriteria scrollStartTimestamp
        previousScrollStartTimestamp previousScrollDuration previousScrollStopTimestamp →
      getInitialVelocityMultiplier scrollDirection previousScrollDirection edge1 edge2
        (scrollMeetsMultiplierTimingCriteria scrollStartTimestamp
          previousScrollStartTimestamp previousScrollDuration previousScrollStopTimestamp)
        m = 1) ∧
    effectiveScrollInitialVelocity raw m = raw * m := by
  refine ⟨?_, ?_, ?_, ?_, ?_, ?_, rfl⟩
  · intro h0 hdir he1 he2 htime
    rw [getInitialVelocityMultiplier, if_neg h0, if_pos ⟨⟨he1, he2⟩, hdir, htime⟩]
  · intro h0 hdir htime
    rw [getInitialVelocityMultiplier, if_neg h0, if_pos ⟨⟨rfl, rfl⟩, hdir, htime⟩,
      getInitialVelocityMultiplier, if_neg h0, if_pos ⟨⟨rfl, rfl⟩, hdir, htime⟩]
  · intro h0
    rw [getInitialVelocityMultiplier, if_pos h0]
  · intro hdir
    rw [getInitialVelocityMultiplier]
    split_ifs with h1 h2
    · rfl
    · exact absurd h2.2.1 hdir
    · rfl
  · intro hedge
    rw [getInitialVelocityMultiplier]
    split_ifs with h1 h2
    · rfl
    · rcases hedge with he | he
      · rw [he] at h2
        simp at h2
      · rw [he] at h2
        simp at h2
    · rfl
  · intro htime
    rw [getInitialVelocityMultiplier]
    split_ifs with h1 h2
    · rfl
    · exact absurd h2.2.2 htime
    · rfl

/-- Witness for C3: a qualifying second flick (direction 1, matching previous
direction, no pinned edge, timing window met) doubles, and a qualifying third
flick triples, the counter. -/
theorem repeated_flick_multiplier_update_witness :
    (1:ℝ) ≠ 0 ∧ (some (1:ℝ) = some (1:ℝ)) ∧
    scrollMeetsMultiplierTimingCriteria 100 0 1000 0 ∧
    getInitialVelocityMultiplier 1 (some 1) false false
      (scrollMeetsMultiplierTimingCriteria 100 0 1000 0) 1 = 2 ∧
    getInitialVelocityMultiplier 1 (some 1) false false
      (scrollMeetsMultiplierTimingCriteria 100 0 1000 0)
      (getInitialVelocityMultiplier 1 (some 1) false false
        (scrollMeetsMultiplierTimingCriteria 100 0 1000 0) 1) = 3 := by
  have htime : scrollMeetsMultiplierTimingCriteria 100 0 1000 0 := by
    constructor <;> norm_num [scrollMeetsMultiplierTimingCriteria]
  refine ⟨by norm_num, rfl, htime, ?_, ?_⟩
  · exact (repeated_flick_multiplier_update 1 (some 1) false false 100 0 1000 0 1 0).1
      (by norm_num) rfl rfl rfl htime
  · exact (repeated_flick_multiplier_update 1 (some 1) false false 100 0 1000 0 1 0).2.1
      (by norm_num) rfl htime

/-! ### Claim C5 -/

/-- Counterexample for C5's quoted reason: on a region with a pending scroll
session, starting a new momentum scroll resolves the previous session with the
source's literal `"New momentum scroll"`, not the claim's literal
`"new momentum scroll"`. -/
theorem new_scroll_interruption_reason_literal_counterexample :
    ScrollEvent.resolve 0 (some "New momentum scroll") ∈
      (scrollStart ScrollableAxes.verticalOnly 0 0 1 1 ⟨some 0, 7, 1, 5, 0, 0⟩).2 ∧
    ScrollEvent.resolve 0 (some "new momentum scroll") ∉
      (scrollStart ScrollableAxes.verticalOnly 0 0 1 1 ⟨some 0, 7, 1, 5, 0, 0⟩).2 := by
  have hsup : scrollSuppressCondition ScrollableAxes.verticalOnly 0 0 1 1 :=
    Or.inl ⟨rfl, rfl⟩
  have hev : (scrollStart ScrollableAxes.verticalOnly 0 0 1 1 ⟨some 0, 7, 1, 5, 0, 0⟩).2 =
      [ScrollEvent.resolve 0 (some "New momentum scroll"),
       ScrollEvent.dispatchScrollStop (some "New momentum scroll"),
       ScrollEvent.cancelFrame 7,
       ScrollEvent.resolve 1 (some "Scroll distance is below minimum scrollable distance"),
       ScrollEvent.dispatchScrollStop
         (some "Scroll distance is below minimum scrollable distance"),
       ScrollEvent.cancelFrame 7] := by
    simp [scrollStart, stopScroll, hsup]
  rw [hev]
  exact ⟨by decide, by decide⟩

/-- Claim C5 (amended: the source's interruption reason literal is
`"New momentum scroll"`): starting a new momentum scroll while a session is
pending resolves that session's completion exactly once, with the reason
`"New momentum scroll"`, and cancels its scheduled frame callback before the
new session schedules its first frame; afterwards the region again has at most
the single new pending session. -/
theorem new_scroll_interrupts_previous_exactly_once
    (scrollableAxes : ScrollableAxes) (vX vY d dpr : ℝ) (s : ScrollMachineState)
    (pid : ℕ) (hpending : s.scrollResolve = some pid) (hfresh : s.nextPromiseId ≠ pid) :
    (¬ scrollSuppressCondition scrollableAxes vX vY d dpr →
      (scrollStart scrollableAxes vX vY d dpr s).2 =
        [ScrollEvent.resolve pid (some "New momentum scroll"),
         ScrollEvent.dispatchScrollStop (some "New momentum scroll"),
         ScrollEvent.cancelFrame s.scrollRafId,
         ScrollEvent.scheduleFrame s.nextRafId] ∧
      (scrollStart scrollableAxes vX vY d dpr s).1.scrollResolve = some s.nextPromiseId) ∧
    (scrollSuppressCondition scrollableAxes vX vY d dpr →
      (scrollStart scrollableAxes vX vY d dpr s).2 =
        [ScrollEvent.resolve pid (some "New momentum scroll"),
         ScrollEvent.dispatchScrollStop (some "New momentum scroll"),
         ScrollEvent.cancelFrame s.scrollRafId,
         ScrollEvent.resolve s.nextPromiseId
           (some "Scroll distance is below minimum scrollable distance"),
         ScrollEvent.dispatchScrollStop
           (some "Scroll distance is below minimum scrollable distance"),
         ScrollEvent.cancelFrame s.scrollRafId]) ∧
    ((scrollStart scrollableAxes vX vY d dpr s).2.countP (fun e =>
      match e with
      | ScrollEvent.resolve q _ => decide (q = pid)
      | _ => false)) = 1 := by
  by_cases hsup : scrollSuppressCondition scrollableAxes vX vY d dpr
  · have hev : (scrollStart scrollableAxes vX vY d dpr s).2 =
        [ScrollEvent.resolve pid (some "New momentum scroll"),
         ScrollEvent.dispatchScrollStop (some "New momentum scroll"),
         ScrollEvent.cancelFrame s.scrollRafId,
         ScrollEvent.resolve s.nextPromiseId
           (some "Scroll distance is below minimum scrollable distance"),
         ScrollEvent.dispatchScrollStop
           (some "Scroll distance is below minimum scrollable distance"),
         ScrollEvent.cancelFrame s.scrollRafId] := by
      simp [scrollStart, stopScroll, hsup, hpending]
    refine ⟨fun h => absurd hsup h, fun _ => hev, ?_⟩
    rw [hev]
    simp [List.countP_cons, hfresh]
  · have hev : (scrollStart scrollableAxes vX vY d dpr s).2 =
        [ScrollEvent.resolve pid (some "New momentum scroll"),
         ScrollEvent.dispatchScrollStop (some "New momentum scroll"),
         ScrollEvent.cancelFrame s.scrollRafId,
         ScrollEvent.scheduleFrame s.nextRafId] := by
      simp [scrollStart, stopScroll, hsup, hpending]
    have hstate : (scrollStart scrollableAxes vX vY d dpr s).1.scrollResolve =
        some s.nextPromiseId := by
      simp [scrollStart, stopScroll, hsup, hpending]
    refine ⟨fun _ => ⟨hev, hstate⟩, fun h => absurd h hsup, ?_⟩
    rw [hev]
    simp [List.countP_cons]

/-- Witness for C5: with a pending session (promise id 0), a new scroll with
velocity `(0, 2)`, deceleration 1 and device pixel ratio 1 emits exactly the
resolve / stop / cancel / schedule sequence. -/
theorem new_scroll_interrupts_previous_exactly_once_witness :
    (⟨some 0, 7, 1, 5, 0, 0⟩ : ScrollMachineState).scrollResolve = some 0 ∧
    (1 : ℕ) ≠ 0 ∧
    ¬ scrollSuppressCondition ScrollableAxes.verticalOnly 0 2 1 1 ∧
    (scrollStart ScrollableAxes.verticalOnly 0 2 1 1 ⟨some 0, 7, 1, 5, 0, 0⟩).2 =
      [ScrollEvent.resolve 0 (some "New momentum scroll"),
       ScrollEvent.dispatchScrollStop (some "New momentum scroll"),
       ScrollEvent.cancelFrame 7,
       ScrollEvent.scheduleFrame 5] := by
  have hdist : getScrollDistance (scrollDuration 0 2 1) 2 = 2 := by
    rw [getScrollDistance, scrollDuration, scrollInitialVelocityTotal, mathHypot_zero_left]
    norm_num
  have hnsup : ¬ scrollSuppressCondition ScrollableAxes.verticalOnly 0 2 1 1 := by
    simp only [scrollSuppressCondition]
    rintro (⟨-, h2⟩ | ⟨h, -⟩ | ⟨-, hd⟩ | ⟨h, -⟩)
    · exact absurd h2 (by norm_num)
    · exact absurd h (by simp)
    · rw [hdist] at hd
      exact absurd hd (by norm_num)
    · exact absurd h (by simp)
  exact ⟨rfl, by norm_num, hnsup,
    ((new_scroll_interrupts_previous_exactly_once ScrollableAxes.verticalOnly 0 2 1 1
      ⟨some 0, 7, 1, 5, 0, 0⟩ 0 rfl (by norm_num)).1 hnsup).1⟩

/-! ### Claim C6 -/

/-- Counterexample for C6's quoted reason: a suppressed scroll resolves with
the source's literal `"Scroll distance is below minimum scrollable distance"`,
not the claim's literal `"below minimum distance"`. -/
theorem minimum_distance_reason_literal_counterexample :
    ScrollEvent.resolve 0
        (some "Scroll distance is below minimum scrollable distance") ∈
      (scrollStart ScrollableAxes.verticalOnly 0 0 1 1 ⟨none, 3, 0, 4, 10, 20⟩).2 ∧
    ScrollEvent.resolve 0 (some "below minimum distance") ∉
      (scrollStart ScrollableAxes.verticalOnly 0 0 1 1 ⟨none, 3, 0, 4, 10, 20⟩).2 := by
  have hsup : scrollSuppressCondition ScrollableAxes.verticalOnly 0 0 1 1 :=
    Or.inl ⟨rfl, rfl⟩
  have hev : (scrollStart ScrollableAxes.verticalOnly 0 0 1 1 ⟨none, 3, 0, 4, 10, 20⟩).2 =
      [ScrollEvent.resolve 0
         (some "Scroll distance is below minimum scrollable distance"),
       ScrollEvent.dispatchScrollStop
         (some "Scroll distance is below minimum scrollable distance"),
       ScrollEvent.cancelFrame 3] := by
    simp [scrollStart, stopScroll, hsup]
  rw [hev]
  exact ⟨by decide, by decide⟩

/-- Claim C6 (amended: the source's interruption reason literal is
`"Scroll distance is below minimum scrollable distance"`): a new momentum
scroll whose projected distance is below one device pixel on every scrollable
axis, or whose initial velocities are both zero, schedules no frame, leaves
the scroll offsets unchanged, and resolves its pending completion immediately
with that reason. The velocity of a non-scrollable axis is zero, as in
`#pointerUpHandler` (lines 1138-1150). -/
theorem minimum_distance_suppression
    (scrollableAxes : ScrollableAxes) (vX vY d dpr : ℝ) (s : ScrollMachineState)
    (hidle : s.scrollResolve = none)
    (hvx : scrollableAxes = ScrollableAxes.verticalOnly ∨
      scrollableAxes = ScrollableAxes.noAxes → vX = 0)
    (hvy : scrollableAxes = ScrollableAxes.horizontalOnly ∨
      scrollableAxes = ScrollableAxes.noAxes → vY = 0)
    (hbelow : specEveryScrollableAxisBelowMinimum scrollableAxes vX vY d dpr ∨
      (vX = 0 ∧ vY = 0)) :
    (scrollStart scrollableAxes vX vY d dpr s).2 =
      [ScrollEvent.resolve s.nextPromiseId
         (some "Scroll distance is below minimum scrollable distance"),
       ScrollEvent.dispatchScrollStop
         (some "Scroll distance is below minimum scrollable distance"),
       ScrollEvent.cancelFrame s.scrollRafId] ∧
    (∀ rafId, ScrollEvent.scheduleFrame rafId ∉ (scrollStart scrollableAxes vX vY d dpr s).2) ∧
    (scrollStart scrollableAxes vX vY d dpr s).1.scrollLeft = s.scrollLeft ∧
    (scrollStart scrollableAxes vX vY d dpr s).1.scrollTop = s.scrollTop := by
  have hsup : scrollSuppressCondition scrollableAxes vX vY d dpr := by
    rcases hbelow with hb | hz
    · cases scrollableAxes with
      | horizontalAndVertical =>
        simp only [specEveryScrollableAxisBelowMinimum] at hb
        exact Or.inr (Or.inr (Or.inr ⟨rfl, hb.1, hb.2⟩))
      | horizontalOnly =>
        simp only [specEveryScrollableAxisBelowMinimum] at hb
        exact Or.inr (Or.inl ⟨rfl, hb⟩)
      | verticalOnly =>
        simp only [specEveryScrollableAxisBelowMinimum] at hb
        exact Or.inr (Or.inr (Or.inl ⟨rfl, hb⟩))
      | noAxes =>
        exact Or.inl ⟨hvx (Or.inr rfl), hvy (Or.inr rfl)⟩
    · exact Or.inl hz
  have hev : (scrollStart scrollableAxes vX vY d dpr s).2 =
      [ScrollEvent.resolve s.nextPromiseId
         (some "Scroll distance is below minimum scrollable distance"),
       ScrollEvent.dispatchScrollStop
         (some "Scroll distance is below minimum scrollable distance"),
       ScrollEvent.cancelFrame s.scrollRafId] := by
    simp [scrollStart, stopScroll, hsup, hidle]
  refine ⟨hev, ?_, ?_, ?_⟩
  · intro rafId
    rw [hev]
    simp
  · simp [scrollStart, stopScroll, hsup, hidle]
  · simp [scrollStart, stopScroll, hsup, hidle]

/-- Witness for C6: a vertical-only region, release velocity `(0, 0.02)`,
deceleration 1 and device pixel ratio 1 projects a distance of `0.0002`,
below one device pixel, so the scroll resolves immediately. -/
theorem minimum_distance_suppression_witness :
    (⟨none, 3, 0, 4, 10, 20⟩ : ScrollMachineState).scrollResolve = none ∧
    specEveryScrollableAxisBelowMinimum ScrollableAxes.verticalOnly 0 (0.02) 1 1 ∧
    (scrollStart ScrollableAxes.verticalOnly 0 (0.02) 1 1 ⟨none, 3, 0, 4, 10, 20⟩).2 =
      [ScrollEvent.resolve 0
         (some "Scroll distance is below minimum scrollable distance"),
       ScrollEvent.dispatchScrollStop
         (some "Scroll distance is below minimum scrollable distance"),
       ScrollEvent.cancelFrame 3] := by
  have hdist : getScrollDistance (scrollDuration 0 (0.02) 1) (0.02) = 0.0002 := by
    rw [getScrollDistance, scrollDuration, scrollInitialVelocityTotal, mathHypot_zero_left]
    norm_num
  have hb : specEveryScrollableAxisBelowMinimum ScrollableAxes.verticalOnly 0 (0.02) 1 1 := by
    simp only [specEveryScrollableAxisBelowMinimum, hdist]
    norm_num
  exact ⟨rfl, hb,
    (minimum_distance_suppression ScrollableAxes.verticalOnly 0 (0.02) 1 1
      ⟨none, 3, 0, 4, 10, 20⟩ rfl (fun _ => rfl) (fun h => by simp at h)
      (Or.inl hb)).1⟩

/-! ### Claim C9 -/

/-- Claim C9: if the pointer-move log is empty, or the release timestamp is
100 ms or more after the last logged sample's timestamp, the estimated release
velocity is 0 on both axes, and a momentum scroll started with both velocities
zero schedules no frame (the glide is suppressed). -/
theorem stale_release_velocity_is_zero
    (pointerMoveLog : List PointerMoveSample) (endTime endPosition : ℝ)
    (edges : EdgeStatus)
    (hstale : pointerMoveLog = [] ∨
      100 ≤ endTime - (pointerMoveLog.getLastD ⟨0, 0, 0⟩).timeStamp) :
    (∀ axis, getVelocity pointerMoveLog endTime endPosition axis edges = 0) ∧
    (∀ scrollableAxes d dpr s rafId,
      ScrollEvent.scheduleFrame rafId ∉ (scrollStart scrollableAxes 0 0 d dpr s).2) := by
  constructor
  · intro axis
    rw [getVelocity, if_neg]
    rcases hstale with h | h
    · rw [h]
      simp
    · rintro ⟨-, hlt⟩
      exact absurd hlt (not_lt.mpr h)
  · intro scrollableAxes d dpr s rafId
    have hsup : scrollSuppressCondition scrollableAxes 0 0 d dpr := Or.inl ⟨rfl, rfl⟩
    rw [scrollStart]
    simp only [if_pos hsup]
    rcases hOpt : s.scrollResolve with _ | pid <;>
      simp [stopScroll, hOpt]

/-- Witness for C9: a release 200 ms after the single logged sample yields
velocity 0 on both axes. -/
theorem stale_release_velocity_is_zero_witness :
    ((100:ℝ) ≤ 200 - (([⟨3, 4, 0⟩] : List PointerMoveSample).getLastD ⟨0, 0, 0⟩).timeStamp) ∧
    (∀ axis, getVelocity [⟨3, 4, 0⟩] 200 50 axis
      ⟨false, false, false, false⟩ = 0) := by
  have hstale : (100:ℝ) ≤ 200 - (([⟨3, 4, 0⟩] :
      List PointerMoveSample).getLastD ⟨0, 0, 0⟩).timeStamp := by
    norm_num [List.getLastD]
  exact ⟨hstale,
    (stale_release_velocity_is_zero [⟨3, 4, 0⟩] 200 50 ⟨false, false, false, false⟩
      (Or.inr hstale)).1⟩

/-! ### Claim C4 -/

/-- Claim C4: a bounce session whose frame clock grows without bound reaches,
after finitely many frames, a frame at which both axes are at equilibrium, and
that frame resets the translate to exactly `(0, 0)`; an axis is at equilibrium
exactly when it is not bouncing, or its elapsed time exceeds `1 / damping` and
its residual translate magnitude is below the one-device-pixel tolerance. -/
theorem bounce_session_terminates
    (b : BounceSession) (hd : 0 < b.bounceDamping) (htol : 0 < b.tolerance)
    (hstart : ¬(b.bounceInitialVelocityX = 0 ∧ b.bounceInitialVelocityY = 0 ∧
      b.bounceInitialPositionX = 0 ∧ b.bounceInitialPositionY = 0))
    (frameTimes : ℕ → ℝ) (hframes : Tendsto frameTimes atTop atTop) :
    (∃ n, bounceFrameIsTerminal b (frameTimes n) ∧
      bounceFrameResultTranslate b (frameTimes n) = (0, 0)) ∧
    (∀ scrolling elapsedTime translate,
      getIsAtEquilibrium b.bounceDamping b.tolerance scrolling elapsedTime translate ↔
        (scrolling = false ∨
          (elapsedTime > bounceTimeAtMaximumDisplacment b.bounceDamping ∧
            |translate| < b.tolerance))) := by
  have axisEq : ∀ (bouncing : Bool) (p0 v0 start : ℝ),
      ∀ᶠ n in atTop, getIsAtEquilibrium b.bounceDamping b.tolerance bouncing
        (frameTimes n - start)
        (getTranslate b.bounceDamping p0 v0 (frameTimes n - start)) := by
    intro bouncing p0 v0 start
    cases bouncing with
    | false => exact Eventually.of_forall fun n => Or.inl rfl
    | true =>
      have he : Tendsto (fun n => frameTimes n - start) atTop atTop := by
        simpa [sub_eq_add_neg] using tendsto_atTop_add_const_right atTop (-start) hframes
      have h1 : ∀ᶠ n in atTop,
          bounceTimeAtMaximumDisplacment b.bounceDamping < frameTimes n - start :=
        he.eventually_gt_atTop _
      have h2 := getTranslate_tendsto_zero b.bounceDamping p0 v0 hd he
      have h3 : ∀ᶠ n in atTop,
          |getTranslate b.bounceDamping p0 v0 (frameTimes n - start)| < b.tolerance := by
        simpa [Real.norm_eq_abs] using
          NormedAddCommGroup.tendsto_nhds_zero.mp h2 b.tolerance htol
      filter_upwards [h1, h3] with n hn1 hn3
      exact Or.inr ⟨rfl, hn1, hn3⟩
  have hX := axisEq b.bounceBouncingX b.bounceInitialPositionX b.bounceInitialVelocityX
    b.bounceStartTimeX
  have hY := axisEq b.bounceBouncingY b.bounceInitialPositionY b.bounceInitialVelocityY
    b.bounceStartTimeY
  obtain ⟨n, hnX, hnY⟩ := (hX.and hY).exists
  have hterm : bounceFrameIsTerminal b (frameTimes n) := ⟨hnX, hnY⟩
  refine ⟨⟨n, hterm, ?_⟩, fun scrolling elapsedTime translate => ?_⟩
  · rw [bounceFrameResultTranslate, if_pos hterm]
  · constructor
    · rintro (h | ⟨-, h1, h2⟩)
      · exact Or.inl h
      · exact Or.inr ⟨h1, h2⟩
    · rintro (h | ⟨h1, h2⟩)
      · exact Or.inl h
      · cases scrolling with
        | false => exact Or.inl rfl
        | true => exact Or.inr ⟨rfl, h1, h2⟩

/-- Witness for C4: a session with damping 1, tolerance 1, the x axis bouncing
with initial velocity 1, the y axis idle, and the frame clock `n ↦ n`. -/
theorem bounce_session_terminates_witness :
    (0:ℝ) < (⟨1, 1, true, 0, 1, 0, false, 0, 0, 0⟩ : BounceSession).bounceDamping ∧
    (0:ℝ) < (⟨1, 1, true, 0, 1, 0, false, 0, 0, 0⟩ : BounceSession).tolerance ∧
    ¬((⟨1, 1, true, 0, 1, 0, false, 0, 0, 0⟩ : BounceSession).bounceInitialVelocityX = 0 ∧
      (⟨1, 1, true, 0, 1, 0, false, 0, 0, 0⟩ : BounceSession).bounceInitialVelocityY = 0 ∧
      (⟨1, 1, true, 0, 1, 0, false, 0, 0, 0⟩ : BounceSession).bounceInitialPositionX = 0 ∧
      (⟨1, 1, true, 0, 1, 0, false, 0, 0, 0⟩ : BounceSession).bounceInitialPositionY = 0) ∧
    (∃ n, bounceFrameIsTerminal ⟨1, 1, true, 0, 1, 0, false, 0, 0, 0⟩ ((n : ℕ) : ℝ) ∧
      bounceFrameResultTranslate ⟨1, 1, true, 0, 1, 0, false, 0, 0, 0⟩ ((n : ℕ) : ℝ) =
        (0, 0)) := by
  refine ⟨by norm_num, by norm_num, by norm_num, ?_⟩
  exact (bounce_session_terminates ⟨1, 1, true, 0, 1, 0, false, 0, 0, 0⟩
    (by norm_num) (by norm_num) (by norm_num)
    (fun n => (n : ℝ)) tendsto_natCast_atTop_atTop).1

/-! ### Claim C8 -/

/-- Claim C8: in rebound-only mode the bounce initial velocity is
`(p / (tMax * e^(-damping * tMax))) / e` with `tMax = 1 / damping`, the
initial position is that velocity times `tMax`, and the decay curve started
from these initial conditions passes through the current displacement (at
elapsed time 0); in impact mode the initial velocity is the impact velocity
scaled by 0.1 and the initial position is 0. -/
theorem bounce_entry_modes
    (bounceDamping bounceCurrentTranslate initialVelocity : ℝ)
    (hd : 0 < bounceDamping) :
    (bounceReboundOnlySetup bounceDamping bounceCurrentTranslate).1 =
      (bounceCurrentTranslate /
        (bounceTimeAtMaximumDisplacment bounceDamping *
          Real.exp
            (-1 * bounceDamping * bounceTimeAtMaximumDisplacment bounceDamping))) /
        Real.exp 1 ∧
    (bounceReboundOnlySetup bounceDamping bounceCurrentTranslate).2 =
      (bounceReboundOnlySetup bounceDamping bounceCurrentTranslate).1 *
        bounceTimeAtMaximumDisplacment bounceDamping ∧
    getTranslate bounceDamping
      (bounceReboundOnlySetup bounceDamping bounceCurrentTranslate).2
      (bounceReboundOnlySetup bounceDamping bounceCurrentTranslate).1 0 =
      bounceCurrentTranslate ∧
    bounceImpactSetup initialVelocity = (initialVelocity * 0.1, 0) := by
  have hdne : bounceDamping ≠ 0 := ne_of_gt hd
  refine ⟨rfl, rfl, ?_, rfl⟩
  simp only [getTranslate, mul_zero, add_zero, Real.exp_zero, div_one]
  show (bounceGetInitialVelocity bounceDamping bounceCurrentTranslate / Real.exp 1) *
      bounceTimeAtMaximumDisplacment bounceDamping = bounceCurrentTranslate
  rw [bounceGetInitialVelocity, bounceTimeAtMaximumDisplacment]
  rw [show -1 * bounceDamping * (1 / bounceDamping) = -1 by field_simp]
  rw [show Real.exp (-1) = (Real.exp 1)⁻¹ from Real.exp_neg 1]
  field_simp
  left
  ring

/-- Witness for C8 at damping 1 and residual displacement 5: the decay curve
passes through 5 at elapsed time 0. -/
theorem bounce_entry_modes_witness :
    (0:ℝ) < 1 ∧
    getTranslate 1 (bounceReboundOnlySetup 1 5).2 (bounceReboundOnlySetup 1 5).1 0 = 5 := by
  exact ⟨by norm_num, (bounce_entry_modes 1 5 3 (by norm_num)).2.2.1⟩

/-! ### Claim C10 -/

/-- Claim C10: registering `document.body` while the root element already has a
scroller returns nothing and leaves the registry unchanged, while every
repeated registration of an already-registered container idempotently returns
the existing scroller and leaves the registry unchanged. -/
theorem createScroller_body_blocked_by_root
    (m : ScrollerMap) (freshId rootScroller : ℕ)
    (hbody : scrollerMapGet m ScrollContainer.body = none)
    (hroot : scrollerMapGet m ScrollContainer.documentElement = some rootScroller) :
    createScroller m ScrollContainer.body freshId = (none, m) ∧
    (∀ c scroller, scrollerMapGet m c = some scroller →
      createScroller m c freshId = (some scroller, m)) := by
  constructor
  · rw [createScroller, hbody, if_pos ⟨rfl, by rw [hroot]; rfl⟩]
  · intro c scroller h
    rw [createScroller, h]

/-- Witness for C10 on the registry holding only the root element's scroller:
registering `document.body` is refused, and re-registering the root element
returns its existing scroller. -/
theorem createScroller_body_blocked_by_root_witness :
    scrollerMapGet [(ScrollContainer.documentElement, 0)] ScrollContainer.body = none ∧
    scrollerMapGet [(ScrollContainer.documentElement, 0)]
      ScrollContainer.documentElement = some 0 ∧
    createScroller [(ScrollContainer.documentElement, 0)] ScrollContainer.body 1 =
      (none, [(ScrollContainer.documentElement, 0)]) ∧
    createScroller [(ScrollContainer.documentElement, 0)] ScrollContainer.documentElement 1 =
      (some 0, [(ScrollContainer.documentElement, 0)]) := by
  have h := createScroller_body_blocked_by_root
    [(ScrollContainer.documentElement, 0)] 1 0 (by decide) (by decide)
  exact ⟨by decide, by decide, h.1, h.2 ScrollContainer.documentElement 0 (by decide)⟩

end MomentaMouse
